import Mathlib

set_option linter.unusedVariables false

/-!
Shallow embedding of the Faster-Whisper speech service (`whisper-service/main.py`):
the two transcription request handlers (`/transcribe` and `/transcribe-realtime`),
their segment aggregation, confidence normalization, and the lifecycle of the
staged temporary audio file.

Modelling conventions:
* Python strings are lists of characters (`PyStr`); `str.strip` and friends are
  `dropWhile Char.isWhitespace` at the relevant end(s).
* Python floats are rationals (the handlers only do comparisons and affine
  arithmetic on them).
* The opaque model call `whisper_model.transcribe(...)` is an oracle input
  `inference : Option (List Segment × PyStr)`: `some (segments, language)` is a
  successful call returning the (already materialized) lazy segment stream and
  `info.language`; `none` is the model call or the segment iteration raising,
  which the handler catches in its `except` block.
* The staging of the upload to a `NamedTemporaryFile(delete=False)` and the
  `os.unlink` call are recorded as booleans `staged` / `unlinked` in the
  outcome, together with whether the model call was reached (`inferenceRan`).
-/

/-- Python strings are modelled as lists of characters. -/
abbrev PyStr := List Char

/-- Python `max(a, b)` on floats (agrees with `max` on ℚ, see `pymax_eq`);
spelled out with `if` so that concrete instances evaluate by `decide`. -/
def pymax (a b : ℚ) : ℚ := if a ≤ b then b else a

/-- Python `min(a, b)` on floats (agrees with `min` on ℚ, see `pymin_eq`). -/
def pymin (a b : ℚ) : ℚ := if a ≤ b then a else b

theorem pymax_eq (a b : ℚ) : pymax a b = max a b := (max_def a b).symm

theorem pymin_eq (a b : ℚ) : pymin a b = min a b := (min_def a b).symm

/-- Python `str.lstrip()`: drop leading whitespace. -/
def lstrip (s : PyStr) : PyStr := s.dropWhile Char.isWhitespace

/-- Python `str.rstrip()`: drop trailing whitespace. -/
def rstrip (s : PyStr) : PyStr := (s.reverse.dropWhile Char.isWhitespace).reverse

/-- Python `str.strip()`: drop leading and trailing whitespace. -/
def pstrip (s : PyStr) : PyStr := lstrip (rstrip s)

/-- One segment emitted by the model. `stop` embeds the source's `segment.end`
(`end` is a reserved word in Lean); `avg_logprob` is the attribute read by
`getattr(segment, 'avg_logprob', 0.0)`, which is always present on
faster-whisper segments and is therefore modelled as a total field. -/
structure Segment where
  start : ℚ
  stop : ℚ
  text : PyStr
  avg_logprob : ℚ
  deriving DecidableEq

/-- The per-segment dict built by the handlers:
`x7b start, end, text (stripped), confidence x7d`. -/
structure SegmentData where
  start : ℚ
  stop : ℚ
  text : PyStr
  confidence : ℚ
  deriving DecidableEq

/-- The error responses the handlers raise as `HTTPException`s:
503 model not loaded, 400 invalid content type (the detail string interpolates
the rejected content type, carried here as a field), 500 transcription failed. -/
inductive ErrorResp where
  | serviceUnavailable
  | invalidInput (content_type : PyStr)
  | transcriptionFailed
  deriving DecidableEq

/-- A handler either returns a value or raises an `HTTPException`. -/
inductive Resp (α : Type) where
  | ok (value : α)
  | error (e : ErrorResp)
  deriving DecidableEq

/-- The `TranscriptionResponse` pydantic model of `/transcribe`. -/
structure TranscriptionResponse where
  text : PyStr
  language : PyStr
  confidence : ℚ
  duration : ℚ
  segments : List SegmentData
  deriving DecidableEq

/-- The dict returned by `/transcribe-realtime`. -/
structure RealtimeResponse where
  text : PyStr
  language : PyStr
  confidence : ℚ
  is_final : Bool
  deriving DecidableEq

/-- A handler run: its response plus the observable temp-file/model effects. -/
structure Outcome (α : Type) where
  response : Resp α
  staged : Bool
  unlinked : Bool
  inferenceRan : Bool
  deriving DecidableEq

/-- The `segment_data` dict built per segment in `/transcribe`. -/
def segmentData (s : Segment) : SegmentData :=
  { start := s.start, stop := s.stop, text := pstrip s.text,
    confidence := s.avg_logprob }

/-- The `/transcribe` handler (`transcribe_audio` in `main.py`).
Checks the model, checks `content_type.startswith('audio/')`, stages the upload
to a temp file, runs the model, folds the segments into `full_text`,
`total_duration` and `transcript_segments`, unlinks the temp file, and
normalizes the mean log-probability to a confidence score.  An inference
failure is caught after staging, with no unlink on that path. -/
def transcribe_audio (model_loaded : Bool) (content_type language : PyStr)
    (inference : Option (List Segment × PyStr)) : Outcome TranscriptionResponse :=
  if model_loaded = false then
    { response := Resp.error ErrorResp.serviceUnavailable,
      staged := false, unlinked := false, inferenceRan := false }
  else if ("audio/".data.isPrefixOf content_type) = false then
    { response := Resp.error (ErrorResp.invalidInput content_type),
      staged := false, unlinked := false, inferenceRan := false }
  else
    match inference with
    | none =>
      { response := Resp.error ErrorResp.transcriptionFailed,
        staged := true, unlinked := false, inferenceRan := true }
    | some (segments, detected_language) =>
      let transcript_segments := segments.map segmentData
      let full_text := segments.foldl (fun acc s => acc ++ pstrip s.text ++ [' ']) []
      let total_duration := segments.foldl (fun acc s => pymax acc s.stop) (0 : ℚ)
      let avg_confidence : ℚ :=
        if transcript_segments.isEmpty then 0
        else ((transcript_segments.map fun s => s.confidence).sum) /
          (transcript_segments.length : ℚ)
      let confidence_score : ℚ := pymax 0 (pymin 1 ((avg_confidence + 5) / 5))
      { response := Resp.ok
          { text := pstrip full_text, language := detected_language,
            confidence := confidence_score, duration := total_duration,
            segments := transcript_segments },
        staged := true, unlinked := true, inferenceRan := true }

/-- The `/transcribe-realtime` handler (`transcribe_realtime` in `main.py`).
No content-type check (the handler never reads `audio_chunk.content_type`);
stages the chunk, runs the model with the fast profile, consumes only the
first segment (`break`), unlinks the temp file and returns
`text`, `language`, `confidence`, `is_final: True`.  An inference failure is
caught after staging, with no unlink on that path. -/
def transcribe_realtime (model_loaded : Bool) (content_type language : PyStr)
    (inference : Option (List Segment × PyStr)) : Outcome RealtimeResponse :=
  if model_loaded = false then
    { response := Resp.error ErrorResp.serviceUnavailable,
      staged := false, unlinked := false, inferenceRan := false }
  else
    match inference with
    | none =>
      { response := Resp.error ErrorResp.transcriptionFailed,
        staged := true, unlinked := false, inferenceRan := true }
    | some (segments, detected_language) =>
      let text : PyStr :=
        match segments with
        | [] => []
        | s :: _ => pstrip s.text ++ [' ']
      let confidence : ℚ :=
        match segments with
        | [] => 0
        | s :: _ => s.avg_logprob
      { response := Resp.ok
          { text := pstrip text, language := detected_language,
            confidence := pymax 0 (pymin 1 ((confidence + 5) / 5)),
            is_final := true },
        staged := true, unlinked := true, inferenceRan := true }

/-- Projection: the successful response of a handler run, if any. -/
def okOf {α : Type} (o : Outcome α) : Option α :=
  match o.response with
  | Resp.ok r => some r
  | Resp.error _ => none

/-- A content type accepted by the primary path, used in concrete instances. -/
def audioWav : PyStr := ("audio/wav").data

/-- The default language hint of both handlers, used in concrete instances. -/
def tlLang : PyStr := ("tl").data

/-- Texts followed by a trailing space each, as `full_text` accumulates them. -/
def withTrail : List PyStr → PyStr
  | [] => []
  | t :: ts => t ++ [' '] ++ withTrail ts

/-- Space-joined texts: the spec's "joined in arrival order with a single
separating space". -/
def joinSp : List PyStr → PyStr
  | [] => []
  | [t] => t
  | t :: u :: ts => t ++ [' '] ++ joinSp (u :: ts)

/-- Claim C5 as stated: trimmed texts space-joined, with only trailing
whitespace stripped from the final concatenation. -/
def claimedText (texts : List PyStr) : PyStr := rstrip (joinSp (texts.map pstrip))

/-- Claim C5 amended: trimmed texts space-joined, with leading and trailing
whitespace stripped from the final concatenation. -/
def amendedText (texts : List PyStr) : PyStr := pstrip (joinSp (texts.map pstrip))

/-- The spec's duration: maximum `endOffsetSeconds` over all segments, 0 when
there are none. -/
def maxEnd : List Segment → ℚ
  | [] => 0
  | [s] => s.stop
  | s :: u :: ts => max s.stop (maxEnd (u :: ts))

/-- The spec's mean log-probability over the segments. -/
def meanLogProb (segments : List Segment) : ℚ :=
  ((segments.map fun s => s.avg_logprob).sum) / (segments.length : ℚ)

/-- The spec's confidence normalization clamp to `[0, 1]`. -/
def clamp01 (x : ℚ) : ℚ := pymax 0 (pymin 1 x)

/-- The first segment's trimmed text, empty for no segments. -/
def firstText : List Segment → PyStr
  | [] => []
  | s :: _ => pstrip s.text

/-- A one-segment model output matching the spec's worked example:
`x7b start: 0.0, end: 2.3, text: "hello", logProbability: -0.2 x7d`. -/
def helloSeg : Segment :=
  { start := 0, stop := 23/10, text := ("hello").data, avg_logprob := -1/5 }

/-- What `/transcribe` returns for `helloSeg` alone. -/
def helloResp : TranscriptionResponse :=
  { text := ("hello").data, language := tlLang, confidence := 24/25,
    duration := 23/10,
    segments := [{ start := 0, stop := 23/10, text := ("hello").data,
                   confidence := -1/5 }] }

/-- What `/transcribe-realtime` returns for `helloSeg` alone. -/
def helloRt : RealtimeResponse :=
  { text := ("hello").data, language := tlLang, confidence := 24/25,
    is_final := true }

/-- A segment whose text strips to the empty string. -/
def wsSeg : Segment := { start := 0, stop := 1, text := [' '], avg_logprob := -1 }

/-- A segment with the text `"hi"`. -/
def hiSeg : Segment := { start := 1, stop := 2, text := ("hi").data, avg_logprob := -1 }

/-! ## Helper lemmas about stripping and folding -/

theorem dropWhile_head_false (p : Char → Bool) (l : List Char) :
    ∀ (a : Char) (t : List Char), l.dropWhile p = a :: t → p a = false := by
  induction l with
  | nil => intro a t h; simp [List.dropWhile] at h
  | cons c l ih =>
    intro a t h
    by_cases hc : p c = true
    · rw [List.dropWhile_cons, if_pos hc] at h
      exact ih a t h
    · rw [List.dropWhile_cons, if_neg hc] at h
      cases h
      simpa using hc

theorem dropWhile_eq_self_of_head (p : Char → Bool) (l : List Char)
    (h : ∀ a t, l = a :: t → p a = false) : l.dropWhile p = l := by
  cases l with
  | nil => rfl
  | cons c t =>
    rw [List.dropWhile_cons, if_neg]
    simp [h c t rfl]

theorem dropWhile_idem (p : Char → Bool) (l : List Char) :
    (l.dropWhile p).dropWhile p = l.dropWhile p :=
  dropWhile_eq_self_of_head p _ (fun a t h => dropWhile_head_false p l a t h)

theorem dropWhile_fix_head (p : Char → Bool) (a : Char) (t : List Char)
    (h : List.dropWhile p (a :: t) = a :: t) : p a = false := by
  by_cases hp : p a = true
  · rw [List.dropWhile_cons, if_pos hp] at h
    have hle := (List.dropWhile_sublist (l := t) p).length_le
    have hlen := congrArg List.length h
    simp at hlen
    omega
  · simpa using hp

theorem lstrip_idem (s : PyStr) : lstrip (lstrip s) = lstrip s :=
  dropWhile_idem _ s

theorem rstrip_idem (s : PyStr) : rstrip (rstrip s) = rstrip s := by
  unfold rstrip
  rw [List.reverse_reverse, dropWhile_idem]

theorem rstrip_fix (s : PyStr) (h : rstrip s = s) :
    s.reverse.dropWhile Char.isWhitespace = s.reverse := by
  have h2 := congrArg List.reverse h
  simpa [rstrip] using h2

theorem rstrip_lstrip (s : PyStr) (h : rstrip s = s) :
    rstrip (lstrip s) = lstrip s := by
  have hrev := rstrip_fix s h
  have key : (lstrip s).reverse.dropWhile Char.isWhitespace = (lstrip s).reverse := by
    apply dropWhile_eq_self_of_head
    intro a t ht
    have hsplit : s = s.takeWhile Char.isWhitespace ++ lstrip s :=
      (List.takeWhile_append_dropWhile Char.isWhitespace s).symm
    have hsrev : s.reverse = a :: (t ++ (s.takeWhile Char.isWhitespace).reverse) := by
      conv_lhs => rw [hsplit]
      rw [List.reverse_append, ht]
      simp
    rw [hsrev] at hrev
    exact dropWhile_fix_head _ _ _ hrev
  unfold rstrip
  rw [key, List.reverse_reverse]

theorem pstrip_idem (s : PyStr) : pstrip (pstrip s) = pstrip s := by
  unfold pstrip
  rw [rstrip_lstrip (rstrip s) (rstrip_idem s), lstrip_idem]

theorem rstrip_append_space (s : PyStr) : rstrip (s ++ [' ']) = rstrip s := by
  unfold rstrip
  rw [List.reverse_append]
  simp only [List.reverse_cons, List.reverse_nil, List.nil_append, List.singleton_append]
  rw [List.dropWhile_cons, if_pos (by decide)]

theorem pstrip_append_space (s : PyStr) : pstrip (s ++ [' ']) = pstrip s := by
  unfold pstrip
  rw [rstrip_append_space]

theorem fold_full_text (segments : List Segment) :
    ∀ a : PyStr, segments.foldl (fun acc s => acc ++ (pstrip s.text ++ [' '])) a =
      a ++ withTrail (segments.map fun s => pstrip s.text) := by
  induction segments with
  | nil => intro a; simp [withTrail]
  | cons s rest ih =>
    intro a
    rw [List.foldl_cons, ih]
    simp [withTrail, List.append_assoc]

theorem withTrail_eq_joinSp (t : PyStr) (ts : List PyStr) :
    withTrail (t :: ts) = joinSp (t :: ts) ++ [' '] := by
  induction ts generalizing t with
  | nil => simp [withTrail, joinSp]
  | cons u ts ih =>
    show t ++ [' '] ++ withTrail (u :: ts) = (t ++ [' '] ++ joinSp (u :: ts)) ++ [' ']
    rw [ih u]
    simp [List.append_assoc]

theorem pstrip_withTrail (ts : List PyStr) :
    pstrip (withTrail ts) = pstrip (joinSp ts) := by
  cases ts with
  | nil => rfl
  | cons t rest => rw [withTrail_eq_joinSp, pstrip_append_space]

theorem fold_duration (l : List Segment) :
    ∀ a : ℚ, 0 ≤ a → (∀ s ∈ l, 0 ≤ s.stop) →
      l.foldl (fun acc s => pymax acc s.stop) a = max a (maxEnd l) := by
  induction l with
  | nil => intro a ha _; simp [maxEnd, max_eq_left ha]
  | cons s l ih =>
    intro a ha hl
    have hs : 0 ≤ s.stop := hl s (by simp)
    rw [List.foldl_cons,
      ih (pymax a s.stop) (by rw [pymax_eq]; exact le_max_of_le_right hs)
        (fun u hu => hl u (by simp [hu])),
      pymax_eq]
    cases l with
    | nil =>
      simp only [maxEnd]
      exact max_eq_left (le_max_of_le_left ha)
    | cons u ts =>
      simp only [maxEnd]
      rw [max_assoc]

theorem maxEnd_nonneg (l : List Segment) (h : ∀ s ∈ l, 0 ≤ s.stop) :
    0 ≤ maxEnd l := by
  cases l with
  | nil => simp [maxEnd]
  | cons s t =>
    cases t with
    | nil => simpa [maxEnd] using h s (by simp)
    | cons u ts =>
      simp only [maxEnd, le_max_iff]
      exact Or.inl (h s (by simp))

theorem pymax_pymin_bounds (x : ℚ) :
    0 ≤ pymax 0 (pymin 1 x) ∧ pymax 0 (pymin 1 x) ≤ 1 := by
  rw [pymax_eq, pymin_eq]
  exact ⟨le_max_left 0 _, max_le (by norm_num) (min_le_left 1 x)⟩

/-! ## Claim theorems -/

/-- C1 (counterexample): on zero segments the primary path returns
confidence 1, not 0 as claimed. -/
theorem c1_counterexample :
    (okOf (transcribe_audio true audioWav tlLang (some ([], tlLang)))).map
        (fun r => r.confidence) = some 1
    ∧ ¬ ((1 : ℚ) = 0) := by
  constructor
  · have hct : ("audio/".data.isPrefixOf audioWav) = true := by decide
    simp [transcribe_audio, okOf, hct]
    norm_num [pymax, pymin]
  · norm_num

/-- C1 (amended): on zero segments the primary path returns text `""`,
confidence 1 (the zero-segment mean log-probability defaults to 0, which the
affine map sends to 1), duration 0 and an empty segments list. -/
theorem c1_zero_segments (content_type language detected : PyStr)
    (hct : ("audio/".data.isPrefixOf content_type) = true) :
    okOf (transcribe_audio true content_type language (some ([], detected))) =
      some { text := [], language := detected, confidence := 1, duration := 0,
             segments := [] } := by
  simp [transcribe_audio, okOf, hct, pstrip, lstrip, rstrip]
  norm_num [pymax, pymin]

/-- C1 (witness): the amended statement at a concrete request. -/
theorem c1_zero_segments_witness :
    okOf (transcribe_audio true audioWav tlLang (some ([], tlLang))) =
      some { text := [], language := tlLang, confidence := 1, duration := 0,
             segments := [] } :=
  c1_zero_segments audioWav tlLang tlLang (by decide)

/-- C2: when the model call raises after staging (oracle `none`), neither
handler unlinks the staged temporary file: the cleanup sits on the success
path only, with no `finally`. -/
theorem c2_temp_file_leak :
    ((transcribe_audio true audioWav tlLang none).staged = true
      ∧ (transcribe_audio true audioWav tlLang none).unlinked = false
      ∧ (transcribe_audio true audioWav tlLang none).response =
          Resp.error ErrorResp.transcriptionFailed)
    ∧ ((transcribe_realtime true audioWav tlLang none).staged = true
      ∧ (transcribe_realtime true audioWav tlLang none).unlinked = false
      ∧ (transcribe_realtime true audioWav tlLang none).response =
          Resp.error ErrorResp.transcriptionFailed) := by
  decide

/-- C3: with at least one segment, the returned confidence is the clamped
affine image of the mean of the segments' log-probabilities. -/
theorem c3_confidence (content_type language detected : PyStr)
    (segments : List Segment)
    (hct : ("audio/".data.isPrefixOf content_type) = true)
    (hne : segments ≠ []) :
    (okOf (transcribe_audio true content_type language (some (segments, detected)))).map
        (fun r => r.confidence) =
      some (clamp01 ((meanLogProb segments + 5) / 5)) := by
  have hmap : ((segments.map segmentData).map fun s => s.confidence) =
      segments.map fun s => s.avg_logprob := by
    rw [List.map_map]; rfl
  have hemp : (segments.map segmentData).isEmpty = false := by
    cases segments with
    | nil => exact absurd rfl hne
    | cons s t => rfl
  simp [transcribe_audio, okOf, hct, clamp01, meanLogProb, hemp, hmap,
    List.length_map]

/-- C3 (witness): the confidence equation at the spec's worked example. -/
theorem c3_confidence_witness :
    (okOf (transcribe_audio true audioWav tlLang (some ([helloSeg], tlLang)))).map
        (fun r => r.confidence) =
      some (clamp01 ((meanLogProb [helloSeg] + 5) / 5)) :=
  c3_confidence audioWav tlLang tlLang [helloSeg] (by decide) (by decide)

/-- C4: every successful response of either path has confidence in `[0, 1]`,
for any model output whatsoever. -/
theorem c4_confidence_bounds (model_loaded : Bool) (content_type language : PyStr)
    (inference : Option (List Segment × PyStr)) :
    (∀ r, okOf (transcribe_audio model_loaded content_type language inference) =
        some r → 0 ≤ r.confidence ∧ r.confidence ≤ 1)
    ∧ (∀ r, okOf (transcribe_realtime model_loaded content_type language inference) =
        some r → 0 ≤ r.confidence ∧ r.confidence ≤ 1) := by
  constructor
  · intro r hr
    cases model_loaded with
    | false => simp [transcribe_audio, okOf] at hr
    | true =>
      by_cases hct : ("audio/".data.isPrefixOf content_type) = true
      · cases inference with
        | none => simp [transcribe_audio, okOf, hct] at hr
        | some p =>
          obtain ⟨segs, dl⟩ := p
          simp [transcribe_audio, okOf, hct] at hr
          rw [← hr]
          exact pymax_pymin_bounds _
      · simp only [Bool.not_eq_true] at hct
        simp [transcribe_audio, okOf, hct] at hr
  · intro r hr
    cases model_loaded with
    | false => simp [transcribe_realtime, okOf] at hr
    | true =>
      cases inference with
      | none => simp [transcribe_realtime, okOf] at hr
      | some p =>
        obtain ⟨segs, dl⟩ := p
        simp [transcribe_realtime, okOf] at hr
        rw [← hr]
        exact pymax_pymin_bounds _

/-- C4 (witness): the bounds at a concrete request on each path. -/
theorem c4_confidence_bounds_witness :
    (0 ≤ helloResp.confidence ∧ helloResp.confidence ≤ 1)
    ∧ (0 ≤ helloRt.confidence ∧ helloRt.confidence ≤ 1) := by
  constructor
  · refine (c4_confidence_bounds true audioWav tlLang (some ([helloSeg], tlLang))).1
      helloResp ?_
    have hct : ("audio/".data.isPrefixOf audioWav) = true := by decide
    simp [transcribe_audio, okOf, hct, helloSeg, helloResp, segmentData,
      pstrip, lstrip, rstrip]
    norm_num [pymax, pymin]
  · refine (c4_confidence_bounds true audioWav tlLang (some ([helloSeg], tlLang))).2
      helloRt ?_
    simp [transcribe_realtime, okOf, helloSeg, helloRt, pstrip, lstrip, rstrip]
    norm_num [pymax, pymin]

/-- C5 (counterexample): with a first segment whose text strips to the empty
string, the returned text drops the resulting leading space, while the claim's
trailing-only strip keeps it. -/
theorem c5_counterexample :
    (okOf (transcribe_audio true audioWav tlLang (some ([wsSeg, hiSeg], tlLang)))).map
        (fun r => r.text) = some (("hi").data)
    ∧ ¬ (("hi").data : PyStr) = claimedText [wsSeg.text, hiSeg.text] := by
  constructor
  · decide
  · decide

/-- C5 (amended): the returned text is the trimmed segment texts joined in
arrival order with single separating spaces, with leading and trailing
whitespace stripped from the final concatenation. -/
theorem c5_full_text (content_type language detected : PyStr)
    (segments : List Segment)
    (hct : ("audio/".data.isPrefixOf content_type) = true) :
    (okOf (transcribe_audio true content_type language (some (segments, detected)))).map
        (fun r => r.text) =
      some (amendedText (segments.map fun s => s.text)) := by
  simp only [transcribe_audio, okOf, hct]
  simp
  rw [fold_full_text segments [], List.nil_append, pstrip_withTrail]
  unfold amendedText
  rw [List.map_map]
  rfl

/-- C5 (witness): the amended statement at the counterexample's input. -/
theorem c5_full_text_witness :
    (okOf (transcribe_audio true audioWav tlLang (some ([wsSeg, hiSeg], tlLang)))).map
        (fun r => r.text) =
      some (amendedText ([wsSeg, hiSeg].map fun s => s.text)) :=
  c5_full_text audioWav tlLang tlLang [wsSeg, hiSeg] (by decide)

/-- C6: the returned duration is the maximum segment end offset, 0 for no
segments (the fold starts at 0, so nonnegative end offsets, as the data model
guarantees, are assumed). -/
theorem c6_duration (content_type language detected : PyStr)
    (segments : List Segment)
    (hct : ("audio/".data.isPrefixOf content_type) = true)
    (hnn : ∀ s ∈ segments, 0 ≤ s.stop) :
    (okOf (transcribe_audio true content_type language (some (segments, detected)))).map
        (fun r => r.duration) = some (maxEnd segments) := by
  simp [transcribe_audio, okOf, hct]
  rw [fold_duration segments 0 le_rfl hnn, max_eq_right (maxEnd_nonneg segments hnn)]

/-- C6 (witness): duration 2.3 at the spec's worked single-segment example. -/
theorem c6_duration_witness :
    (okOf (transcribe_audio true audioWav tlLang (some ([helloSeg], tlLang)))).map
        (fun r => r.duration) = some (maxEnd [helloSeg]) :=
  c6_duration audioWav tlLang tlLang [helloSeg] (by decide)
    (by intro s hs; simp at hs; rw [hs]; norm_num [helloSeg])

/-- C7: a primary-path request whose content type does not start with
`audio/` is rejected with InvalidInput carrying that content type, before any
staging and before any inference. -/
theorem c7_content_type (content_type language : PyStr)
    (inference : Option (List Segment × PyStr))
    (h : ("audio/".data.isPrefixOf content_type) = false) :
    (transcribe_audio true content_type language inference).response =
        Resp.error (ErrorResp.invalidInput content_type)
    ∧ (transcribe_audio true content_type language inference).staged = false
    ∧ (transcribe_audio true content_type language inference).inferenceRan = false := by
  simp [transcribe_audio, h]

/-- C7 (witness): a `text/plain` request is rejected before staging. -/
theorem c7_content_type_witness :
    (transcribe_audio true ("text/plain").data tlLang none).response =
        Resp.error (ErrorResp.invalidInput (("text/plain").data))
    ∧ (transcribe_audio true ("text/plain").data tlLang none).staged = false
    ∧ (transcribe_audio true ("text/plain").data tlLang none).inferenceRan = false :=
  c7_content_type ("text/plain").data tlLang none (by decide)

/-- C8: a successful realtime response carries at most the first segment's
trimmed text (later segments never contribute) and always `is_final = true`. -/
theorem c8_realtime_first (content_type language detected : PyStr)
    (segments : List Segment) :
    (okOf (transcribe_realtime true content_type language (some (segments, detected)))).map
        (fun r => (r.text, r.is_final)) = some (firstText segments, true) := by
  cases segments with
  | nil => simp [transcribe_realtime, okOf, firstText]; rfl
  | cons s rest =>
    simp [transcribe_realtime, okOf, firstText]
    rw [pstrip_append_space, pstrip_idem]

/-- C9: the realtime path never validates the content type: the outcome is
independent of the declared content type, it never raises InvalidInput, and
with the model loaded every request is staged and reaches inference. -/
theorem c9_no_content_type_check (model_loaded : Bool) (ct1 ct2 language : PyStr)
    (inference : Option (List Segment × PyStr)) :
    transcribe_realtime model_loaded ct1 language inference =
        transcribe_realtime model_loaded ct2 language inference
    ∧ (transcribe_realtime true ct1 language inference).staged = true
    ∧ (transcribe_realtime true ct1 language inference).inferenceRan = true
    ∧ ∀ rejected, ¬ (transcribe_realtime model_loaded ct1 language inference).response =
        Resp.error (ErrorResp.invalidInput rejected) := by
  refine ⟨rfl, ?_, ?_, ?_⟩
  · cases inference with
    | none => rfl
    | some p => obtain ⟨segs, dl⟩ := p; rfl
  · cases inference with
    | none => rfl
    | some p => obtain ⟨segs, dl⟩ := p; rfl
  · intro rejected hcontra
    cases model_loaded with
    | false => simp [transcribe_realtime] at hcontra
    | true =>
      cases inference with
      | none => simp [transcribe_realtime] at hcontra
      | some p =>
        obtain ⟨segs, dl⟩ := p
        simp [transcribe_realtime] at hcontra

/-- C9 (witness): a non-audio chunk behaves exactly like an audio chunk and is
not rejected as InvalidInput. -/
theorem c9_no_content_type_check_witness :
    transcribe_realtime true ("text/plain").data tlLang none =
        transcribe_realtime true audioWav tlLang none
    ∧ ¬ (transcribe_realtime true ("text/plain").data tlLang none).response =
        Resp.error (ErrorResp.invalidInput (("text/plain").data)) :=
  ⟨(c9_no_content_type_check true ("text/plain").data audioWav tlLang none).1,
   (c9_no_content_type_check true ("text/plain").data audioWav tlLang none).2.2.2
     (("text/plain").data)⟩

/-- C10: a realtime request whose model output has zero segments returns
text `""` and confidence 1 (the loop-initial log-probability 0 maps to 1). -/
theorem c10_realtime_empty (content_type language detected : PyStr) :
    okOf (transcribe_realtime true content_type language (some ([], detected))) =
      some { text := [], language := detected, confidence := 1, is_final := true } := by
  simp [transcribe_realtime, okOf, pstrip, lstrip, rstrip]
  norm_num [pymax, pymin]
